import Mathlib

/-!
Verification of the flaskr blogging application core: the session-scoped
authentication and authorization gate, the post store operations, and the
per-request database connection lifecycle.

The embedding is shallow. SQL tables become Lean lists kept in insertion
order together with an auto-increment counter; the signed cookie session
becomes a key-value list; the per-request ambient object `g` becomes
explicit values (`g.user` an `Option User`, `g.db` an `Option` connection
inside `DbState`). Request handlers become pure functions from the relevant
state to a new state paired with an outcome value; raising `abort(404)` or
`abort(403)` becomes returning an `HttpError` outcome with the state
unchanged, since an exception in the handler prevents the later `db.commit()`.
The werkzeug hashing pair (`generate_password_hash`, `check_password_hash`)
is an external library, so it enters as function parameters `hashFn` and
`checkHash`. The SQL engine `ORDER BY created DESC` is modelled as a stable
descending sort of the insertion-ordered table.
-/

namespace Flaskr

/-- A row of the `user` table: `user(id, username UNIQUE, password)`.
The `password` column stores the werkzeug hash, as in `register`. -/
structure User where
  id : Nat
  username : String
  password : String
deriving DecidableEq, Repr

/-- A row of the `post` table:
`post(id, title, body, created TIMESTAMP, author_id REFERENCES user.id)`. -/
structure Post where
  id : Nat
  title : String
  body : String
  created : Nat
  author_id : Nat
deriving DecidableEq, Repr

/-- The `user` table with its auto-increment counter; rows are kept in
insertion order. -/
structure UserStore where
  users : List User
  nextId : Nat
deriving DecidableEq, Repr

/-- The `post` table with its auto-increment counter; rows are kept in
insertion order. -/
structure PostStore where
  posts : List Post
  nextId : Nat
deriving DecidableEq, Repr

/-- The Flask session dict: a signed client-held mapping from string keys to
values. Only integer values occur in this application (the key is
`"user_id"`). -/
abbrev Session := List (String × Nat)

/-- `session.get(k)`: look the key up, `none` when absent. -/
def sessionGet (s : Session) (k : String) : Option Nat :=
  (s.find? (fun p => p.1 == k)).map Prod.snd

/-- `session.clear()`: remove every key. -/
def sessionClear (_ : Session) : Session := []

/-- `session[k] = v`: dict update, replacing any previous binding of `k`. -/
def sessionSet (s : Session) (k : String) (v : Nat) : Session :=
  (s.filter (fun p => !(p.1 == k))) ++ [(k, v)]

/-- `SELECT * FROM user WHERE username = ? ... fetchone()`: first row whose
`username` column matches (the column is UNIQUE, so at most one matches). -/
def findUserByName (users : List User) (username : String) : Option User :=
  users.find? (fun u => u.username == username)

/-- `SELECT * FROM user WHERE id = ? ... fetchone()`. -/
def findUserById (users : List User) (uid : Nat) : Option User :=
  users.find? (fun u => u.id == uid)

/-- The two flash messages of `register` validation plus the
IntegrityError branch message. -/
inductive RegisterError where
  | usernameRequired
  | passwordRequired
  | alreadyRegistered (username : String)
deriving DecidableEq, Repr

/-- What the `register` view hands back to the client. -/
inductive RegisterOutcome where
  | redirectLogin
  | renderRegister (error : Option RegisterError)
deriving DecidableEq, Repr

/-- `INSERT INTO user (username, password) VALUES (?, ?)` followed by
`db.commit()`. The UNIQUE constraint on `username` makes the insertion
itself fail (sqlite3.IntegrityError, modelled as `none`) exactly when a row
with that username already exists; no separate existence pre-check runs. -/
def insertUser (store : UserStore) (username passwordHash : String) :
    Option UserStore :=
  if store.users.any (fun u => u.username == username) then none
  else some ⟨store.users ++ [⟨store.nextId, username, passwordHash⟩],
             store.nextId + 1⟩

/-- The `register` view (auth.py). `isPost` is `request.method == 'POST'`;
`hashFn` is werkzeug `generate_password_hash`. Empty username, then empty
password, are rejected before any insertion; otherwise the insertion is
attempted and an IntegrityError becomes the already-registered message;
on success the view redirects to the login page. The session is never
touched. -/
def register (hashFn : String → String) (store : UserStore) (isPost : Bool)
    (username password : String) : UserStore × RegisterOutcome :=
  if isPost then
    if username = "" then (store, .renderRegister (some .usernameRequired))
    else if password = "" then (store, .renderRegister (some .passwordRequired))
    else
      match insertUser store username (hashFn password) with
      | none => (store, .renderRegister (some (.alreadyRegistered username)))
      | some store2 => (store2, .redirectLogin)
  else (store, .renderRegister none)

/-- Request-level view of `register`: the source of `register` contains no
assignment to `session`, so the request session passes through unchanged
while the user table may change. -/
def register_request (hashFn : String → String) (store : UserStore)
    (sess : Session) (isPost : Bool) (username password : String) :
    UserStore × Session × RegisterOutcome :=
  let (store2, out) := register hashFn store isPost username password
  (store2, sess, out)

/-- The two flash messages of the `login` view. -/
inductive LoginError where
  | incorrectUsername
  | incorrectPassword
deriving DecidableEq, Repr

/-- What the `login` view hands back to the client. -/
inductive LoginOutcome where
  | redirectIndex
  | renderLogin (error : Option LoginError)
deriving DecidableEq, Repr

/-- The `login` view (auth.py). `checkHash stored supplied` is werkzeug
`check_password_hash(stored, supplied)`. A missing user is reported before
the hash comparison runs; on success the view clears the whole session and
then stores the user id under `"user_id"`; on failure the session is left
as it was. -/
def login (checkHash : String → String → Bool) (users : List User)
    (sess : Session) (isPost : Bool) (username password : String) :
    Session × LoginOutcome :=
  if isPost then
    match findUserByName users username with
    | none => (sess, .renderLogin (some .incorrectUsername))
    | some user =>
      if checkHash user.password password then
        (sessionSet (sessionClear sess) "user_id" user.id, .redirectIndex)
      else (sess, .renderLogin (some .incorrectPassword))
  else (sess, .renderLogin none)

/-- `load_logged_in_user` (auth.py): runs before every view; reads
`session.get('user_id')`; absent id gives `g.user = None`, otherwise
`g.user` is the result of the id lookup (which is itself `None` when the id
matches no row). -/
def load_logged_in_user (users : List User) (sess : Session) : Option User :=
  match sessionGet sess "user_id" with
  | none => none
  | some uid => findUserById users uid

/-- The `logout` view (auth.py): clears the session unconditionally and
redirects to the index. -/
def logout (sess : Session) : Session := sessionClear sess

/-- Result of a view wrapped by `login_required`: either the guard
short-circuited with the redirect to the login page, or the wrapped view
ran and produced its own result. -/
inductive Guarded (ρ : Type) where
  | redirectLogin
  | result (r : ρ)
deriving DecidableEq, Repr

/-- The `login_required` decorator (auth.py): `wrapped_view(**kwargs)`
redirects to the login page when `g.user is None` and otherwise calls the
wrapped view on the same kwargs, returning its result. `κ` is the type of
the kwargs, `ρ` the view result type. -/
def login_required {κ ρ : Type} (view : κ → ρ) (guser : Option User)
    (kwargs : κ) : Guarded ρ :=
  match guser with
  | none => .redirectLogin
  | some _ => .result (view kwargs)

/-- A row of the blog SELECT:
`p.id, title, body, created, author_id, username` from
`post p JOIN user u ON p.author_id = u.id`. -/
structure PostView where
  id : Nat
  title : String
  body : String
  created : Nat
  author_id : Nat
  username : String
deriving DecidableEq, Repr

/-- One row of the inner join: a post paired with its author row when the
author id resolves, nothing otherwise (the join drops the row). -/
def joinAuthor (users : List User) (p : Post) : Option PostView :=
  (findUserById users p.author_id).map
    (fun u => ⟨p.id, p.title, p.body, p.created, p.author_id, u.username⟩)

/-- The whole join, in table (insertion) order, before any ORDER BY. -/
def joinedPosts (users : List User) (posts : List Post) : List PostView :=
  posts.filterMap (joinAuthor users)

/-- The ORDER BY key of the index query: row `a` may come before row `b`
when `b.created ≤ a.created` (descending on `created`). -/
def createdGE (a b : PostView) : Prop := b.created ≤ a.created

instance : DecidableRel createdGE := fun a b => Nat.decLe b.created a.created

instance : IsTotal PostView createdGE :=
  ⟨fun a b => Nat.le_total b.created a.created⟩

instance : IsTrans PostView createdGE :=
  ⟨fun _ _ _ hab hbc => Nat.le_trans hbc hab⟩

/-- The `index` view (blog.py): the join of every post with its author
username, ordered by `created` descending. The SQL sorter is modelled as a
stable sort of the insertion-ordered table. -/
def index (users : List User) (posts : List Post) : List PostView :=
  (joinedPosts users posts).insertionSort createdGE

/-- `abort(404, ...)` and `abort(403)` raised by `get_post`. -/
inductive HttpError where
  | notFound (id : Nat)
  | forbidden
deriving DecidableEq, Repr

/-- `get_post(id, check_author=True)` (blog.py): fetch the joined row with
the given post id; `abort(404)` when there is none; when `check_author` is
set and the author id differs from the logged-in user id, `abort(403)`;
otherwise return the row. -/
def get_post (users : List User) (posts : List Post) (guser : User)
    (id : Nat) (check_author : Bool := true) : Except HttpError PostView :=
  match (joinedPosts users posts).find? (fun v => v.id == id) with
  | none => .error (.notFound id)
  | some post =>
    if check_author && !(post.author_id == guser.id) then .error .forbidden
    else .ok post

/-- The one flash message of the `create` and `update` views. -/
inductive BlogError where
  | titleRequired
deriving DecidableEq, Repr

/-- What the `create` view hands back to the client. -/
inductive CreateOutcome where
  | redirectIndex
  | renderCreate (error : Option BlogError)
deriving DecidableEq, Repr

/-- The `create` view (blog.py), behind `login_required` so `guser` is the
logged-in user. `now` is the server-assigned CURRENT_TIMESTAMP. An empty
title flashes an error and re-renders; otherwise the post is inserted with
`g.user['id']` as author and the view redirects to the index. The body is
never validated. -/
def create (store : PostStore) (now : Nat) (guser : User) (isPost : Bool)
    (title body : String) : PostStore × CreateOutcome :=
  if isPost then
    if title = "" then (store, .renderCreate (some .titleRequired))
    else (⟨store.posts ++ [⟨store.nextId, title, body, now, guser.id⟩],
           store.nextId + 1⟩, .redirectIndex)
  else (store, .renderCreate none)

/-- What the `update` view hands back to the client. -/
inductive UpdateOutcome where
  | httpError (e : HttpError)
  | renderUpdate (error : Option BlogError)
  | redirectIndex
deriving DecidableEq, Repr

/-- The `update` view (blog.py), behind `login_required`. `get_post id`
runs first, so a 404 or 403 aborts before any method check or write. On a
POST with a non-empty title, `UPDATE post SET title = ?, body = ? WHERE
id = ?` rewrites the matching row and the view redirects to the index. -/
def update (users : List User) (store : PostStore) (guser : User) (id : Nat)
    (isPost : Bool) (title body : String) : PostStore × UpdateOutcome :=
  match get_post users store.posts guser id with
  | .error e => (store, .httpError e)
  | .ok _post =>
    if isPost then
      if title = "" then (store, .renderUpdate (some .titleRequired))
      else
        (⟨store.posts.map (fun p =>
            if p.id = id then { p with title := title, body := body } else p),
          store.nextId⟩, .redirectIndex)
    else (store, .renderUpdate none)

/-- What the `delete` view hands back to the client. -/
inductive DeleteOutcome where
  | httpError (e : HttpError)
  | redirectIndex
deriving DecidableEq, Repr

/-- The `delete` view (blog.py), behind `login_required`. `get_post id`
runs first (result discarded), so a 404 or 403 aborts before the
`DELETE FROM post WHERE id = ?`. -/
def delete (users : List User) (store : PostStore) (guser : User)
    (id : Nat) : PostStore × DeleteOutcome :=
  match get_post users store.posts guser id with
  | .error e => (store, .httpError e)
  | .ok _ =>
    (⟨store.posts.filter (fun p => !(p.id == id)), store.nextId⟩,
     .redirectIndex)

/-- The per-request state behind `get_db` and `close_db` (db.py).
`g_db` is the `'db'` entry of the request-scoped object `g`; `nextConn`
supplies the identity of the next `sqlite3.connect` result; `openConns`
tracks the connections currently open. -/
structure DbState where
  g_db : Option Nat
  nextConn : Nat
  openConns : List Nat
deriving DecidableEq, Repr

/-- `get_db` (db.py): when `'db' not in g`, open a new connection, store it
in `g.db` and return it; otherwise return the stored connection without
opening anything. -/
def get_db (s : DbState) : Nat × DbState :=
  match s.g_db with
  | some c => (c, s)
  | none =>
    (s.nextConn, ⟨some s.nextConn, s.nextConn + 1,
                  s.openConns ++ [s.nextConn]⟩)

/-- `close_db` (db.py): `g.pop('db', None)`; when a connection was stored it
is closed, otherwise nothing happens. -/
def close_db (s : DbState) : DbState :=
  match s.g_db with
  | none => s
  | some c => ⟨none, s.nextConn, s.openConns.filter (fun x => !(x == c))⟩

/-- `init_app` registers `close_db` with `app.teardown_appcontext`, so the
framework calls it when cleaning up after the request, whether the handler
returned normally or raised. A request is therefore a handler step followed
unconditionally by `close_db`, on both outcome branches. -/
def run_request {ε α : Type} (handler : DbState → DbState × Except ε α)
    (s : DbState) : DbState × Except ε α :=
  let (s2, out) := handler s
  (close_db s2, out)

/-- C1: a `login_required`-wrapped view redirects to the login entry point
whenever the resolved per-request identity is anonymous, with a result that
does not depend on the wrapped view (so the view is never invoked); with a
non-anonymous identity it returns exactly the result of the wrapped view on
the same kwargs. -/
theorem C1_login_required_guard :
    (∀ (κ ρ : Type) (view : κ → ρ) (k : κ),
        login_required view none k = Guarded.redirectLogin) ∧
    (∀ (κ ρ : Type) (v1 v2 : κ → ρ) (k : κ),
        login_required v1 none k = login_required v2 none k) ∧
    (∀ (κ ρ : Type) (view : κ → ρ) (u : User) (k : κ),
        login_required view (some u) k = Guarded.result (view k)) :=
  ⟨fun _ _ _ _ => rfl, fun _ _ _ _ _ => rfl, fun _ _ _ _ _ => rfl⟩

/-- C3: `login` fails with the incorrect-username message when no user has
the supplied username, and with the incorrect-password message when the
hash comparison fails; in both failure cases the session comes back exactly
as it was. On success the resulting session is precisely the single binding
of `"user_id"` to the verified user id: any prior state is cleared first,
so the session holds at most one identity. -/
theorem C3_login :
    (∀ ch users sess u p, findUserByName users u = none →
        login ch users sess true u p
          = (sess, .renderLogin (some .incorrectUsername))) ∧
    (∀ ch users sess u p user, findUserByName users u = some user →
        ch user.password p = false →
        login ch users sess true u p
          = (sess, .renderLogin (some .incorrectPassword))) ∧
    (∀ ch users sess u p user, findUserByName users u = some user →
        ch user.password p = true →
        login ch users sess true u p
          = ([("user_id", user.id)], .redirectIndex)) := by
  refine ⟨fun ch users sess u p h => ?_,
          fun ch users sess u p user h hc => ?_,
          fun ch users sess u p user h hc => ?_⟩
  · simp [login, h]
  · simp [login, h, hc]
  · simp [login, h, hc, sessionSet, sessionClear]

/-- Witness for C3 on a one-user store with hash comparison
`fun st sup => st == "H:" ++ sup`. -/
theorem C3_login_witness :
    (login (fun st sup => st == "H:" ++ sup) [⟨1, "alice", "H:pw"⟩]
        [("x", 9)] true "bob" "pw"
      = ([("x", 9)], .renderLogin (some .incorrectUsername))) ∧
    (login (fun st sup => st == "H:" ++ sup) [⟨1, "alice", "H:pw"⟩]
        [("x", 9)] true "alice" "wrong"
      = ([("x", 9)], .renderLogin (some .incorrectPassword))) ∧
    (login (fun st sup => st == "H:" ++ sup) [⟨1, "alice", "H:pw"⟩]
        [("x", 9)] true "alice" "pw"
      = ([("user_id", 1)], .redirectIndex)) :=
  ⟨C3_login.1 _ _ _ _ _ (by decide),
   C3_login.2.1 _ _ _ _ _ ⟨1, "alice", "H:pw"⟩ (by decide) (by decide),
   C3_login.2.2 _ _ _ _ _ ⟨1, "alice", "H:pw"⟩ (by decide) (by decide)⟩

/-- C4: the Session Resolver yields the anonymous identity when the session
carries no user id; yields the full stored record when the carried id
resolves; yields the anonymous identity when the id resolves to no stored
user; and `logout` clears the session unconditionally (so it is idempotent
and safe with no active session), after which resolution is anonymous. -/
theorem C4_session_resolver :
    (∀ users sess, sessionGet sess "user_id" = none →
        load_logged_in_user users sess = none) ∧
    (∀ users sess uid u, sessionGet sess "user_id" = some uid →
        findUserById users uid = some u →
        load_logged_in_user users sess = some u) ∧
    (∀ users sess uid, sessionGet sess "user_id" = some uid →
        findUserById users uid = none →
        load_logged_in_user users sess = none) ∧
    (∀ sess, logout sess = []) ∧
    (∀ users sess, load_logged_in_user users (logout sess) = none) := by
  refine ⟨fun users sess h => ?_, fun users sess uid u h hf => ?_,
          fun users sess uid h hf => ?_, fun _ => rfl, fun _ _ => rfl⟩
  · simp [load_logged_in_user, h]
  · simp [load_logged_in_user, h, hf]
  · simp [load_logged_in_user, h, hf]

/-- Witness for C4 on a one-user store and concrete sessions. -/
theorem C4_session_resolver_witness :
    (load_logged_in_user [⟨1, "alice", "H"⟩] [("other", 3)] = none) ∧
    (load_logged_in_user [⟨1, "alice", "H"⟩] [("user_id", 1)]
      = some ⟨1, "alice", "H"⟩) ∧
    (load_logged_in_user [⟨1, "alice", "H"⟩] [("user_id", 7)] = none) :=
  ⟨C4_session_resolver.1 _ _ (by decide),
   C4_session_resolver.2.1 _ _ 1 _ (by decide) (by decide),
   C4_session_resolver.2.2.1 _ _ 7 (by decide) (by decide)⟩

/-- C5: `register` rejects an empty username, then an empty password, with
nothing persisted; with a fresh username it appends exactly one row whose
password column is the hash of the supplied password (never the plaintext)
and redirects to the login page; with a taken username the insertion itself
reports the conflict and the store is unchanged; in particular registering
the same username twice succeeds the first time and conflicts the second. -/
theorem C5_register :
    (∀ h store p, register h store true "" p
        = (store, .renderRegister (some .usernameRequired))) ∧
    (∀ h store u, u ≠ "" → register h store true u ""
        = (store, .renderRegister (some .passwordRequired))) ∧
    (∀ h store u p, u ≠ "" → p ≠ "" →
        store.users.any (fun x => x.username == u) = false →
        register h store true u p
          = (⟨store.users ++ [⟨store.nextId, u, h p⟩], store.nextId + 1⟩,
             .redirectLogin)) ∧
    (∀ h store u p, u ≠ "" → p ≠ "" →
        store.users.any (fun x => x.username == u) = true →
        register h store true u p
          = (store, .renderRegister (some (.alreadyRegistered u)))) ∧
    (∀ h store u p q, u ≠ "" → p ≠ "" → q ≠ "" →
        store.users.any (fun x => x.username == u) = false →
        register h (register h store true u p).1 true u q
          = ((register h store true u p).1,
             .renderRegister (some (.alreadyRegistered u)))) := by
  refine ⟨fun h store p => by simp [register],
          fun h store u hu => by simp [register, hu],
          fun h store u p hu hp hfree => ?_,
          fun h store u p hu hp htaken => ?_,
          fun h store u p q hu hp hq hfree => ?_⟩
  · simp [register, hu, hp, insertUser, hfree]
  · simp [register, hu, hp, insertUser, htaken]
  · have hfirst : (register h store true u p).1
        = ⟨store.users ++ [⟨store.nextId, u, h p⟩], store.nextId + 1⟩ := by
      simp [register, hu, hp, insertUser, hfree]
    rw [hfirst]
    simp [register, hu, hq, insertUser]

/-- Witness for C5 starting from the empty user table. -/
theorem C5_register_witness :
    (register (fun p => "H:" ++ p) ⟨[], 1⟩ true "ann" ""
      = (⟨[], 1⟩, .renderRegister (some .passwordRequired))) ∧
    (register (fun p => "H:" ++ p) ⟨[], 1⟩ true "ann" "pw"
      = (⟨[⟨1, "ann", "H:pw"⟩], 2⟩, .redirectLogin)) ∧
    (register (fun p => "H:" ++ p) ⟨[⟨1, "ann", "H:pw"⟩], 2⟩ true "ann" "pw2"
      = (⟨[⟨1, "ann", "H:pw"⟩], 2⟩,
         .renderRegister (some (.alreadyRegistered "ann")))) ∧
    (register (fun p => "H:" ++ p)
        (register (fun p => "H:" ++ p) ⟨[], 1⟩ true "ann" "pw").1 true "ann" "pw2"
      = ((register (fun p => "H:" ++ p) ⟨[], 1⟩ true "ann" "pw").1,
         .renderRegister (some (.alreadyRegistered "ann")))) :=
  ⟨C5_register.2.1 _ _ _ (by decide),
   C5_register.2.2.1 _ _ _ _ (by decide) (by decide) (by decide),
   C5_register.2.2.2.1 _ _ _ _ (by decide) (by decide) (by decide),
   C5_register.2.2.2.2 _ _ _ _ _ (by decide) (by decide) (by decide) (by decide)⟩

/-- C10: `register` never writes to the session on any path, and a visitor
who has registered but not logged in (session without a user id) still
resolves to the anonymous identity against the post-registration user
table. -/
theorem C10_register_session_frame :
    (∀ h store sess b u p,
        (register_request h store sess b u p).2.1 = sess) ∧
    (∀ h store sess b u p, sessionGet sess "user_id" = none →
        load_logged_in_user (register_request h store sess b u p).1.users sess
          = none) := by
  refine ⟨fun _ _ _ _ _ _ => rfl, fun h store sess b u p hanon => ?_⟩
  simp [load_logged_in_user, hanon]

/-- Witness for C10: a fresh registration with an anonymous session. -/
theorem C10_register_session_frame_witness :
    load_logged_in_user
      (register_request (fun p => "H:" ++ p) ⟨[], 1⟩ [("other", 4)]
          true "ann" "pw").1.users
      [("other", 4)] = none :=
  C10_register_session_frame.2 _ _ _ _ _ _ (by decide)

/-- A joined row keeps the id of the post it came from. -/
theorem joinAuthor_id {users : List User} {p : Post} {v : PostView}
    (h : joinAuthor users p = some v) : v.id = p.id := by
  unfold joinAuthor at h
  cases hf : findUserById users p.author_id with
  | none => rw [hf] at h; simp at h
  | some u =>
    rw [hf] at h
    simp only [Option.map_some', Option.some.injEq] at h
    rw [← h]

/-- When no post row carries the requested id, the join holds no row with
that id either. -/
theorem find_joined_none {users : List User} {posts : List Post} {id : Nat}
    (h : ∀ p ∈ posts, p.id ≠ id) :
    (joinedPosts users posts).find? (fun v => v.id == id) = none := by
  apply List.find?_eq_none.mpr
  intro v hv
  simp only [joinedPosts, List.mem_filterMap] at hv
  obtain ⟨p, hp, hj⟩ := hv
  simp [joinAuthor_id hj, h p hp]

/-- C6: on an id matching no stored post, `get_post` fails with the 404
abort for either value of the author-check flag, and `update` and `delete`,
which delegate the existence check to `get_post`, fail the same way with
the post table left untouched. -/
theorem C6_missing_id :
    (∀ users posts guser id b, (∀ p ∈ posts, p.id ≠ id) →
        get_post users posts guser id b = .error (.notFound id)) ∧
    (∀ users store guser id isP t bd, (∀ p ∈ store.posts, p.id ≠ id) →
        update users store guser id isP t bd
          = (store, .httpError (.notFound id))) ∧
    (∀ users store guser id, (∀ p ∈ store.posts, p.id ≠ id) →
        delete users store guser id = (store, .httpError (.notFound id))) := by
  refine ⟨fun users posts guser id b h => ?_,
          fun users store guser id isP t bd h => ?_,
          fun users store guser id h => ?_⟩
  · simp [get_post, find_joined_none h]
  · simp [update, get_post, find_joined_none h]
  · simp [delete, get_post, find_joined_none h]

/-- Witness for C6 on a one-post store and the absent id 9. -/
theorem C6_missing_id_witness :
    (get_post [⟨1, "ann", "H"⟩] [⟨1, "t", "b", 5, 1⟩] ⟨1, "ann", "H"⟩ 9 true
      = .error (.notFound 9)) ∧
    (update [⟨1, "ann", "H"⟩] ⟨[⟨1, "t", "b", 5, 1⟩], 2⟩ ⟨1, "ann", "H"⟩ 9
        true "x" "y"
      = (⟨[⟨1, "t", "b", 5, 1⟩], 2⟩, .httpError (.notFound 9))) ∧
    (delete [⟨1, "ann", "H"⟩] ⟨[⟨1, "t", "b", 5, 1⟩], 2⟩ ⟨1, "ann", "H"⟩ 9
      = (⟨[⟨1, "t", "b", 5, 1⟩], 2⟩, .httpError (.notFound 9))) :=
  ⟨C6_missing_id.1 _ _ _ _ _ (by decide),
   C6_missing_id.2.1 _ _ _ _ _ _ _ (by decide),
   C6_missing_id.2.2 _ _ _ _ (by decide)⟩

/-- C2: the 404 on a missing joined row fires for every caller and both
values of the author-check flag, so the missing-post check precedes the
ownership check; with the check on, a row whose author differs from the
caller aborts with 403, and `update` and `delete` then leave the post table
untouched; the author personally passes the check, so the mutation goes
through; with the check off, `get_post` succeeds on any found row
regardless of authorship. -/
theorem C2_ownership :
    (∀ users posts guser id b,
        (joinedPosts users posts).find? (fun v => v.id == id) = none →
        get_post users posts guser id b = .error (.notFound id)) ∧
    (∀ users posts guser id v,
        (joinedPosts users posts).find? (fun w => w.id == id) = some v →
        v.author_id ≠ guser.id →
        get_post users posts guser id = .error .forbidden) ∧
    (∀ users store guser id v isP t bd,
        (joinedPosts users store.posts).find? (fun w => w.id == id) = some v →
        v.author_id ≠ guser.id →
        update users store guser id isP t bd
          = (store, .httpError .forbidden)) ∧
    (∀ users store guser id v,
        (joinedPosts users store.posts).find? (fun w => w.id == id) = some v →
        v.author_id ≠ guser.id →
        delete users store guser id = (store, .httpError .forbidden)) ∧
    (∀ users store guser id v t bd,
        (joinedPosts users store.posts).find? (fun w => w.id == id) = some v →
        v.author_id = guser.id → t ≠ "" →
        update users store guser id true t bd
          = (⟨store.posts.map (fun p =>
                if p.id = id then { p with title := t, body := bd } else p),
              store.nextId⟩, .redirectIndex)) ∧
    (∀ users store guser id v,
        (joinedPosts users store.posts).find? (fun w => w.id == id) = some v →
        v.author_id = guser.id →
        delete users store guser id
          = (⟨store.posts.filter (fun p => !(p.id == id)), store.nextId⟩,
             .redirectIndex)) ∧
    (∀ users posts guser id v,
        (joinedPosts users posts).find? (fun w => w.id == id) = some v →
        get_post users posts guser id false = .ok v) := by
  refine ⟨fun users posts guser id b h => by simp [get_post, h],
          fun users posts guser id v h hne => by simp [get_post, h, hne],
          fun users store guser id v isP t bd h hne => ?_,
          fun users store guser id v h hne => ?_,
          fun users store guser id v t bd h heq ht => ?_,
          fun users store guser id v h heq => ?_,
          fun users posts guser id v h => by simp [get_post, h]⟩
  · simp [update, get_post, h, hne]
  · simp [delete, get_post, h, hne]
  · simp [update, get_post, h, heq, ht]
  · simp [delete, get_post, h, heq]

/-- Witness for C2: a two-user, two-post store; user 2 owns post 2 only. -/
theorem C2_ownership_witness :
    (get_post [⟨1, "ann", "H"⟩, ⟨2, "bob", "H"⟩]
        [⟨1, "t1", "b", 5, 1⟩, ⟨2, "t2", "b", 6, 2⟩] ⟨2, "bob", "H"⟩ 9 false
      = .error (.notFound 9)) ∧
    (get_post [⟨1, "ann", "H"⟩, ⟨2, "bob", "H"⟩]
        [⟨1, "t1", "b", 5, 1⟩, ⟨2, "t2", "b", 6, 2⟩] ⟨2, "bob", "H"⟩ 1
      = .error .forbidden) ∧
    (update [⟨1, "ann", "H"⟩, ⟨2, "bob", "H"⟩]
        ⟨[⟨1, "t1", "b", 5, 1⟩, ⟨2, "t2", "b", 6, 2⟩], 3⟩ ⟨2, "bob", "H"⟩ 1
        true "x" "y"
      = (⟨[⟨1, "t1", "b", 5, 1⟩, ⟨2, "t2", "b", 6, 2⟩], 3⟩,
         .httpError .forbidden)) ∧
    (delete [⟨1, "ann", "H"⟩, ⟨2, "bob", "H"⟩]
        ⟨[⟨1, "t1", "b", 5, 1⟩, ⟨2, "t2", "b", 6, 2⟩], 3⟩ ⟨2, "bob", "H"⟩ 1
      = (⟨[⟨1, "t1", "b", 5, 1⟩, ⟨2, "t2", "b", 6, 2⟩], 3⟩,
         .httpError .forbidden)) ∧
    (update [⟨1, "ann", "H"⟩, ⟨2, "bob", "H"⟩]
        ⟨[⟨1, "t1", "b", 5, 1⟩, ⟨2, "t2", "b", 6, 2⟩], 3⟩ ⟨2, "bob", "H"⟩ 2
        true "x" "y"
      = (⟨[⟨1, "t1", "b", 5, 1⟩, ⟨2, "x", "y", 6, 2⟩], 3⟩, .redirectIndex)) ∧
    (delete [⟨1, "ann", "H"⟩, ⟨2, "bob", "H"⟩]
        ⟨[⟨1, "t1", "b", 5, 1⟩, ⟨2, "t2", "b", 6, 2⟩], 3⟩ ⟨2, "bob", "H"⟩ 2
      = (⟨[⟨1, "t1", "b", 5, 1⟩], 3⟩, .redirectIndex)) ∧
    (get_post [⟨1, "ann", "H"⟩, ⟨2, "bob", "H"⟩]
        [⟨1, "t1", "b", 5, 1⟩, ⟨2, "t2", "b", 6, 2⟩] ⟨2, "bob", "H"⟩ 1 false
      = .ok ⟨1, "t1", "b", 5, 1, "ann"⟩) :=
  ⟨C2_ownership.1 _ _ _ _ _ (by decide),
   C2_ownership.2.1 _ _ _ _ ⟨1, "t1", "b", 5, 1, "ann"⟩ (by decide) (by decide),
   C2_ownership.2.2.1 _ _ _ _ ⟨1, "t1", "b", 5, 1, "ann"⟩ _ _ _
     (by decide) (by decide),
   C2_ownership.2.2.2.1 _ _ _ _ ⟨1, "t1", "b", 5, 1, "ann"⟩
     (by decide) (by decide),
   C2_ownership.2.2.2.2.1 _ _ _ _ ⟨2, "t2", "b", 6, 2, "bob"⟩ _ _
     (by decide) (by decide) (by decide),
   C2_ownership.2.2.2.2.2.1 _ _ _ _ ⟨2, "t2", "b", 6, 2, "bob"⟩
     (by decide) (by decide),
   C2_ownership.2.2.2.2.2.2 _ _ _ _ ⟨1, "t1", "b", 5, 1, "ann"⟩ (by decide)⟩

/-- C7: `create` on a POST with an empty title flashes the required-title
error and leaves the post table unchanged (same post count); any non-empty
title is accepted with the body unconstrained, the empty body included. -/
theorem C7_create :
    (∀ store now guser b, create store now guser true "" b
        = (store, .renderCreate (some .titleRequired))) ∧
    (∀ store now guser b,
        (create store now guser true "" b).1.posts.length
          = store.posts.length) ∧
    (∀ store now guser t b, t ≠ "" →
        create store now guser true t b
          = (⟨store.posts ++ [⟨store.nextId, t, b, now, guser.id⟩],
              store.nextId + 1⟩, .redirectIndex)) := by
  refine ⟨fun store now guser b => by simp [create],
          fun store now guser b => by simp [create],
          fun store now guser t b ht => by simp [create, ht]⟩

/-- Witness for C7: a non-empty title with an empty body is accepted. -/
theorem C7_create_witness :
    create ⟨[], 1⟩ 5 ⟨1, "ann", "H"⟩ true "hello" ""
      = (⟨[⟨1, "hello", "", 5, 1⟩], 2⟩, .redirectIndex) :=
  C7_create.2.2 _ _ _ _ _ (by decide)

/-- `orderedInsert createdGE` walks past only rows with a strictly larger
`created`, so within any one `created` class the inserted row lands in
front and the rest keep their relative order. -/
theorem filter_created_orderedInsert (a : PostView) (c : Nat)
    (l : List PostView) :
    ((l.orderedInsert createdGE a).filter (fun x => x.created == c))
      = if a.created = c
          then a :: l.filter (fun x => x.created == c)
          else l.filter (fun x => x.created == c) := by
  induction l with
  | nil => by_cases hc : a.created = c <;> simp [hc]
  | cons b bs ih =>
    rw [List.orderedInsert]
    by_cases hr : createdGE a b
    · by_cases hc : a.created = c <;> simp [hr, hc, List.filter_cons]
    · have hlt : a.created < b.created := Nat.lt_of_not_le hr
      by_cases hc : a.created = c
      · have hbc : ¬(b.created = c) := by omega
        simp [hr, List.filter_cons, hbc, hc, ih]
      · simp [hr, List.filter_cons, hc, ih]

/-- The stable descending sort keeps each `created` class in table order. -/
theorem filter_created_insertionSort (c : Nat) (l : List PostView) :
    ((l.insertionSort createdGE).filter (fun x => x.created == c))
      = l.filter (fun x => x.created == c) := by
  induction l with
  | nil => rfl
  | cons a l ih =>
    rw [List.insertionSort, filter_created_orderedInsert]
    simp only [ih]
    by_cases hc : a.created = c <;> simp [hc, List.filter_cons]

/-- C8: `index` returns a sequence sorted by `created` descending, which is
a permutation of the full author-joined table (no pagination, nothing
dropped), and every class of equal `created` values appears in table
(insertion) order; on posts inserted with created = 1,2,2,3 the returned
order is 3,2,2,1 with the two 2s in insertion order. -/
theorem C8_index_ordering :
    (∀ users posts, (index users posts).Sorted createdGE) ∧
    (∀ users posts, (index users posts).Perm (joinedPosts users posts)) ∧
    (∀ users posts c,
        (index users posts).filter (fun v => v.created == c)
          = (joinedPosts users posts).filter (fun v => v.created == c)) ∧
    (index [⟨1, "ann", "H"⟩]
        [⟨1, "t1", "", 1, 1⟩, ⟨2, "t2", "", 2, 1⟩,
         ⟨3, "t3", "", 2, 1⟩, ⟨4, "t4", "", 3, 1⟩]
      = [⟨4, "t4", "", 3, 1, "ann"⟩, ⟨2, "t2", "", 2, 1, "ann"⟩,
         ⟨3, "t3", "", 2, 1, "ann"⟩, ⟨1, "t1", "", 1, 1, "ann"⟩]) :=
  ⟨fun users posts => List.sorted_insertionSort createdGE (joinedPosts users posts),
   fun users posts => List.perm_insertionSort createdGE (joinedPosts users posts),
   fun users posts c => filter_created_insertionSort c (joinedPosts users posts),
   by decide⟩

/-- Once a request state carries a connection, a further `get_db` returns
that connection and leaves the state untouched. -/
theorem get_db_fix (s : DbState) :
    get_db (get_db s).2 = ((get_db s).1, (get_db s).2) := by
  cases h : s.g_db <;> simp [get_db, h]

/-- `n` further `get_db` calls within the same request, each threading the
request state. -/
def get_db_calls : Nat → DbState → DbState
  | 0, s => s
  | n + 1, s => get_db_calls n (get_db s).2

/-- C9: after the first `get_db` of a request, any number of further calls
leaves the state fixed and keeps returning the first connection, so at most
one connection is acquired per request; on a fresh request the first call
opens exactly one connection; `close_db` is a no-op when none was created
and otherwise drops and closes the stored connection; and the registered
teardown runs `close_db` after the handler on both the normal and the
raising path, so no request state retains a connection. -/
theorem C9_db_lifecycle :
    (∀ s, get_db (get_db s).2 = ((get_db s).1, (get_db s).2)) ∧
    (∀ s n, get_db_calls n (get_db s).2 = (get_db s).2) ∧
    (∀ s n, (get_db (get_db_calls n (get_db s).2)).1 = (get_db s).1) ∧
    (∀ s, s.g_db = none →
        (get_db s).2.openConns = s.openConns ++ [(get_db s).1]) ∧
    (∀ s, s.g_db = none → close_db s = s) ∧
    (∀ s c, s.g_db = some c →
        (close_db s).g_db = none ∧ c ∉ (close_db s).openConns) ∧
    (∀ (ε α : Type) (handler : DbState → DbState × Except ε α) (s : DbState),
        (run_request handler s).1.g_db = none) := by
  have hcalls : ∀ n s, get_db_calls n (get_db s).2 = (get_db s).2 := by
    intro n
    induction n with
    | zero => intro s; rfl
    | succ n ih =>
      intro s
      rw [get_db_calls]
      have h2 : (get_db (get_db s).2).2 = (get_db s).2 :=
        congrArg Prod.snd (get_db_fix s)
      rw [h2, ih]
  refine ⟨get_db_fix, fun s n => hcalls n s, fun s n => ?_,
          fun s h => by simp [get_db, h],
          fun s h => by simp [close_db, h],
          fun s c h => ?_,
          fun ε α handler s => ?_⟩
  · rw [hcalls n s, congrArg Prod.fst (get_db_fix s)]
  · constructor
    · simp [close_db, h]
    · simp [close_db, h]
  · show (close_db (handler s).1).g_db = none
    cases h : (handler s).1.g_db <;> simp [close_db, h]

/-- Witness for C9: a fresh request state, then one carrying connection 0. -/
theorem C9_db_lifecycle_witness :
    ((get_db ⟨none, 0, []⟩).2.openConns = [] ++ [(get_db ⟨none, 0, []⟩).1]) ∧
    (close_db ⟨none, 0, []⟩ = ⟨none, 0, []⟩) ∧
    ((close_db ⟨some 0, 1, [0]⟩).g_db = none
      ∧ 0 ∉ (close_db ⟨some 0, 1, [0]⟩).openConns) :=
  ⟨C9_db_lifecycle.2.2.2.1 ⟨none, 0, []⟩ (by decide),
   C9_db_lifecycle.2.2.2.2.1 ⟨none, 0, []⟩ (by decide),
   C9_db_lifecycle.2.2.2.2.2.1 ⟨some 0, 1, [0]⟩ 0 (by decide)⟩

end Flaskr
